import Mathlib

/-!
Shallow embedding of the mkdocs python-reference generator
(src/mkdocs_py_ref_gen/generator.py) and proofs about it.

Paths are modelled as POSIX strings; the helpers below embed the pieces of
pathlib / os.path that the generator uses.
-/

set_option maxRecDepth 100000

namespace RefGen

/-- Splits a character list on the slash separator, like the posix split used
by os.path: an empty string yields one empty piece. -/
def splitSlash : List Char → List String
  | [] => [""]
  | c :: cs =>
    let rest := splitSlash cs
    if c = '/' then "" :: rest
    else
      match rest with
      | [] => [String.mk [c]]
      | r :: rs => String.mk (c :: r.data) :: rs

/-- os.path.basename: the portion of the path after the final slash. -/
def basename (p : String) : String :=
  (splitSlash p.data).getLastD ""

/-- os.path.dirname: everything before the final slash, with trailing slashes
stripped unless the result is all slashes. -/
def dirname (p : String) : String :=
  let tail := p.data.reverse.dropWhile (fun c => ¬ c = '/')
  if tail = [] then ""
  else if tail.all (fun c => c = '/') then String.mk tail.reverse
  else String.mk ((tail.dropWhile (fun c => c = '/')).reverse)

/-- str.startswith as a raw character-prefix test. -/
def strStartsWith (s t : String) : Bool :=
  t.data.isPrefixOf s.data

/-- str.endswith as a raw character-suffix test. -/
def strEndsWith (s t : String) : Bool :=
  t.data.isSuffixOf s.data

/-- Joins pieces with a separator, like str.join. -/
def joinWith (sep : String) : List String → String
  | [] => ""
  | [x] => x
  | x :: y :: xs => x ++ sep ++ joinWith sep (y :: xs)

/-- The non-empty, non-dot components of a POSIX path, as pathlib stores
them after parsing. -/
def posixComponents (p : String) : List String :=
  (splitSlash p.data).filter (fun c => ¬ (c = "" ∨ c = "."))

/-- pathlib.Path(x).as_posix(): parse and re-render a path, dropping empty
and single-dot components. -/
def asPosixNorm (p : String) : String :=
  let comps := posixComponents p
  let lead : String := if strStartsWith p "/" then "/" else ""
  if comps = [] then (if strStartsWith p "/" then "/" else ".")
  else lead ++ joinWith "/" comps

/-- pathlib.Path(p).parent rendered with as_posix(). -/
def pathParent (p : String) : String :=
  let comps := (posixComponents p).dropLast
  let lead : String := if strStartsWith p "/" then "/" else ""
  if comps = [] then (if strStartsWith p "/" then "/" else ".")
  else lead ++ joinWith "/" comps

/-- Path.absolute() rendered with as_posix(): a relative path is joined
under the working directory. -/
def absolutize (cwd p : String) : String :=
  if strStartsWith p "/" then p else cwd ++ "/" ++ p

/-- pathlib's with_suffix on a file name: the suffix starts at the last dot,
provided that dot is neither the first nor the last character. -/
def withSuffix (name suf : String) : String :=
  let cs := name.data
  let after := cs.reverse.takeWhile (fun c => ¬ c = '.')
  let n := cs.length
  if after.length = n then name ++ suf
  else
    let i := n - after.length - 1
    if 0 < i ∧ i < n - 1 then String.mk (cs.take i) ++ suf else name ++ suf

/-- A Python value as it appears in the option dictionaries: a bool, a
nested dict, or anything else carried by its str() form. -/
inductive Val where
  | vbool : Bool → Val
  | vother : String → Val
  | vdict : List (String × Val) → Val

/-- The two-space-per-level indentation prefix. -/
def indentStr : Nat → String
  | 0 => ""
  | n + 1 => indentStr n ++ "  "

mutual

/-- The per-value part of dict_to_yaml's loop body: a nested dict opens a
block one level deeper, a bool renders as true/false, anything else by its
string form; each scalar line ends with a newline. -/
def renderVal : Val → Nat → String
  | Val.vdict d, ind => "\n" ++ dict_to_yaml d (ind + 1)
  | Val.vbool b, _ => " " ++ (cond b "true" "false") ++ "\n"
  | Val.vother s, _ => " " ++ s ++ "\n"

/-- dict_to_yaml from generator.py: renders each key as
"<indent><key>:" followed by its value's rendering. -/
def dict_to_yaml : List (String × Val) → Nat → String
  | [], _ => ""
  | (k, v) :: rest, ind => indentStr ind ++ k ++ ":" ++ renderVal v ind ++ dict_to_yaml rest ind

end

/-- The rendering of one dictionary entry inside dict_to_yaml's loop. -/
def entryRender (ind : Nat) (k : String) (v : Val) : String :=
  indentStr ind ++ k ++ ":" ++ renderVal v ind

/-- First-match association lookup, the Python dict read. -/
def alookup (k : String) : List (String × Val) → Option Val
  | [] => none
  | (k0, v0) :: rest => if k0 = k then some v0 else alookup k rest

/-- Python's `k in d` on the association list. -/
def containsKey (k : String) (d : List (String × Val)) : Bool :=
  (alookup k d).isSome

/-- How the dict literal merge rewrites one entry of the first dict: keep
the key, take the second dict's value when it has one. -/
def mergeFn (o : List (String × Val)) (kv : String × Val) : String × Val :=
  match alookup kv.1 o with
  | some w => (kv.1, w)
  | none => kv

/-- The dict literal merge used on line 91 of generator.py: keys of the
first dict keep their position, with values overridden by the second dict;
keys only in the second dict are appended in its order. -/
def shallowMerge (d o : List (String × Val)) : List (String × Val) :=
  d.map (mergeFn o) ++ o.filter (fun kv => ! containsKey kv.1 d)

/-- The association list with the value at one key replaced. -/
def updValue (d : List (String × Val)) (k : String) (v : Val) : List (String × Val) :=
  d.map (fun kv => if k = kv.1 then (kv.1, v) else kv)

/-- The hardcoded default option dictionary of get_options_str. -/
def defaults : List (String × Val) :=
  [("show_root_heading", Val.vother "false"),
   ("allow_inspection", Val.vother "false"),
   ("show_root_full_path", Val.vother "true"),
   ("find_stubs_package", Val.vother "true"),
   ("show_source", Val.vother "false"),
   ("show_submodules", Val.vother "false"),
   ("members_order", Val.vother "source"),
   ("inherited_members", Val.vother "false"),
   ("summary", Val.vdict
      [("attributes", Val.vbool true),
       ("methods", Val.vbool true),
       ("classes", Val.vbool true),
       ("modules", Val.vbool false)]),
   ("imported_members", Val.vother "true"),
   ("docstring_section_style", Val.vother "spacy"),
   ("relative_crossrefs", Val.vother "true"),
   ("show_root_members_full_path", Val.vother "false"),
   ("show_object_full_path", Val.vother "false"),
   ("annotations_path", Val.vother "source"),
   ("show_category_heading", Val.vother "true"),
   ("group_by_category", Val.vother "true"),
   ("show_signature_annotations", Val.vother "true"),
   ("separate_signature", Val.vother "true"),
   ("signature_crossrefs", Val.vother "true")]

/-- get_options_str: merge the caller's options over the defaults (a None
or empty argument leaves the defaults unchanged) and render at indent 3. -/
def get_options_str (options : Option (List (String × Val))) : String :=
  let opts := match options with
    | none => []
    | some o => o
  dict_to_yaml (shallowMerge defaults opts) 3

/-- get_md_content: the stub document body built by the f-string. -/
def get_md_content (identifier : String) (options : Option (List (String × Val))) : String :=
  "\n::: " ++ identifier ++ "\n    handler: python\n    options:\n"
    ++ get_options_str options ++ "\n"

/-- The exceptions get_module_path can raise. -/
inductive PyError where
  | valueError : String → PyError
  | importError : String → PyError
deriving DecidableEq

/-- get_module_path: the module-location lookup. `find` stands for the
interpreter's pkgutil.find_loader combined with get_filename, yielding the
located module's file path; the function itself only rejects an empty name,
maps a failed lookup to ImportError, and otherwise returns the
parent-of-parent directory of the module's file as a POSIX path. -/
def get_module_path (find : String → Option String) (module_name : String) :
    Except PyError String :=
  if module_name = "" then Except.error (PyError.valueError "module_name is required")
  else
    match find module_name with
    | none => Except.error (PyError.importError ("module " ++ module_name ++ " not found"))
    | some fn => Except.ok (pathParent (pathParent fn))

/-- The Module dataclass. Options are None or a dict. -/
structure Module where
  name : String
  path : String
  exclude_files : List String
  exclude_dirs : List String
  options : Option (List (String × Val))

/-- The navigation object, abstracted to its observable content: the
ordered mapping from segment tuples to relative document paths. -/
abbrev Nav := List (List String × String)

/-- nav[parts] = doc_path: replace in place if the key exists, else append. -/
def navSet (nav : Nav) (k : List String) (v : String) : Nav :=
  if nav.any (fun e => e.1 = k) then
    nav.map (fun e => if e.1 = k then (k, v) else e)
  else nav ++ [(k, v)]

/-- normalize_paths from generator.py: drop falsy (empty) entries, render
the rest with as_posix(). -/
def normalize_paths : List String → List String
  | [] => []
  | x :: rest => if x = "" then normalize_paths rest
                 else asPosixNorm x :: normalize_paths rest

/-- should_exclude from generator.py (there spelled with a leading
underscore): exclude when the base name starts with an underscore, when the
absolute path ends with a normalized exclude_files entry, or when the
containing directory ends with a normalized exclude_dirs entry. `cwd` is
the working directory `Path.absolute()` resolves relative paths against. -/
def should_exclude (cwd path : String) (exclude_files exclude_dirs : List String) : Bool :=
  if strStartsWith (basename path) "_" then true
  else
    let ef := normalize_paths exclude_files
    let ed := normalize_paths exclude_dirs
    if ef.any (fun x => strEndsWith (absolutize cwd path) x) then true
    else (ed.any (fun x => strEndsWith (dirname path) x))

/-- The components of `path` relative to the traversal base `base`
(Path.relative_to on a path produced by rglob under `base`). -/
def relComponents (base path : String) : List String :=
  (posixComponents path).drop (posixComponents base).length

/-- The contents written for one stub: get_md_content plus the trailing
newline added by print. -/
def stubContent (parts : List String) (options : Option (List (String × Val))) : String :=
  get_md_content (joinWith "." parts) options ++ "\n"

/-- The body of render_ref's loop for one discovered file, threading the
nav object and the trace of (path, contents) writes done so far. -/
def renderStep (cwd : String) (m : Module) (st : Nav × List (String × String))
    (path : String) : Nav × List (String × String) :=
  if should_exclude cwd path m.exclude_files m.exclude_dirs then st
  else
    let rel := relComponents m.path path
    let nameLast := rel.getLastD ""
    let parts := rel.dropLast ++ [withSuffix nameLast ""]
    if withSuffix nameLast "" = "__init__" then
      let doc_path := joinWith "/" (rel.dropLast ++ ["index.md"])
      (navSet st.1 parts.dropLast doc_path,
       st.2 ++ [("reference/" ++ doc_path, stubContent parts.dropLast m.options)])
    else if withSuffix nameLast "" = "__main__" then st
    else
      let doc_path := joinWith "/" (rel.dropLast ++ [withSuffix nameLast ".md"])
      (navSet st.1 parts doc_path,
       st.2 ++ [("reference/" ++ doc_path, stubContent parts m.options)])

/-- render_ref: fold the loop body over the sorted list of .py files found
under module.path/module.name. The first component is the function's Python
return value (the nav object); the second is the trace of virtual-file
writes it performed. -/
def render_ref (cwd : String) (files : List String) (m : Module) (nav : Nav) :
    Nav × List (String × String) :=
  files.foldl (renderStep cwd m) (nav, [])

/-- The spec's scenario: module pkg rooted at /r, traversal root /r/pkg
holding exactly these four files, in sorted rglob order. -/
def scenarioFiles : List String :=
  ["/r/pkg/__init__.py", "/r/pkg/__main__.py", "/r/pkg/mod_a.py", "/r/pkg/mod_b.py"]

/-- The spec scenario's module configuration. -/
def scenarioModule : Module :=
  { name := "pkg", path := "/r", exclude_files := ["mod_b.py"],
    exclude_dirs := [], options := none }

/-- A concrete lookup oracle: only the module os can be located, at the
usual standard-library spot. -/
def osFind : String → Option String :=
  fun n => if n = "os" then some "/usr/lib/python3.9/os.py" else none

/-! Lemmas about lookup, the shallow merge and the YAML rendering. -/

theorem alookup_append_some {k : String} {a : List (String × Val)} {v : Val}
    (b : List (String × Val)) (h : alookup k a = some v) :
    alookup k (a ++ b) = some v := by
  induction a with
  | nil => simp [alookup] at h
  | cons e rest ih =>
    obtain ⟨k0, v0⟩ := e
    by_cases hk : k0 = k
    · simp [alookup, hk] at h ⊢
      exact h
    · simp [alookup, hk] at h ⊢
      exact ih h

theorem alookup_append_none {k : String} {a : List (String × Val)}
    (b : List (String × Val)) (h : alookup k a = none) :
    alookup k (a ++ b) = alookup k b := by
  induction a with
  | nil => simp
  | cons e rest ih =>
    obtain ⟨k0, v0⟩ := e
    by_cases hk : k0 = k
    · simp [alookup, hk] at h
    · simp [alookup, hk] at h ⊢
      exact ih h

theorem alookup_mergeFn_none {k : String} {o : List (String × Val)}
    (d : List (String × Val)) (h : alookup k o = none) :
    alookup k (d.map (mergeFn o)) = alookup k d := by
  induction d with
  | nil => rfl
  | cons e rest ih =>
    obtain ⟨k0, v0⟩ := e
    by_cases hk : k0 = k
    · subst hk
      simp [alookup, mergeFn, h]
    · rcases h0 : alookup k0 o with _ | w <;>
        simp [alookup, mergeFn, h0, hk, ih]

theorem alookup_map_none {k : String} {d : List (String × Val)}
    (o : List (String × Val)) (h : alookup k d = none) :
    alookup k (d.map (mergeFn o)) = none := by
  induction d with
  | nil => rfl
  | cons e rest ih =>
    obtain ⟨k0, v0⟩ := e
    by_cases hk : k0 = k
    · simp [alookup, hk] at h
    · simp [alookup, hk] at h
      rcases h0 : alookup k0 o with _ | w <;>
        simp [alookup, mergeFn, h0, hk, ih h]

theorem alookup_map_hit {k : String} {d : List (String × Val)} {w : Val}
    (v : Val) (h : alookup k d = some w) :
    alookup k (d.map (mergeFn [(k, v)])) = some v := by
  induction d with
  | nil => simp [alookup] at h
  | cons e rest ih =>
    obtain ⟨k0, v0⟩ := e
    by_cases hk : k0 = k
    · subst hk
      simp [alookup, mergeFn]
    · have hk' : ¬ k = k0 := fun hh => hk hh.symm
      simp [alookup, hk] at h
      simp [alookup, mergeFn, hk, hk', ih h]

theorem alookup_filter_none {k : String} {o : List (String × Val)}
    (p : String × Val → Bool) (h : alookup k o = none) :
    alookup k (o.filter p) = none := by
  induction o with
  | nil => rfl
  | cons e rest ih =>
    obtain ⟨k0, v0⟩ := e
    by_cases hk : k0 = k
    · simp [alookup, hk] at h
    · simp [alookup, hk] at h
      rcases hp : p (k0, v0) <;> simp [List.filter, hp, alookup, hk, ih h]

theorem alookup_merge_other {d o : List (String × Val)} {k : String}
    (h : alookup k o = none) :
    alookup k (shallowMerge d o) = alookup k d := by
  unfold shallowMerge
  rcases hd : alookup k d with _ | w
  · rw [alookup_append_none _ (alookup_map_none o hd), alookup_filter_none _ h]
  · exact alookup_append_some _ ((alookup_mergeFn_none d h).trans hd)

theorem alookup_merge_hit (d : List (String × Val)) (k : String) (v : Val) :
    alookup k (shallowMerge d [(k, v)]) = some v := by
  unfold shallowMerge
  rcases hd : alookup k d with _ | w
  · rw [alookup_append_none _ (alookup_map_none _ hd)]
    have hck : containsKey k d = false := by simp [containsKey, hd]
    simp [List.filter, hck, alookup]
  · exact alookup_append_some _ (alookup_map_hit v hd)

theorem alookup_none_of_not_mem {k : String} {d : List (String × Val)}
    (h : ¬ k ∈ d.map Prod.fst) : alookup k d = none := by
  induction d with
  | nil => rfl
  | cons e rest ih =>
    obtain ⟨k0, v0⟩ := e
    simp only [List.map_cons, List.mem_cons] at h
    push_neg at h
    have hk : ¬ k0 = k := fun hh => h.1 hh.symm
    simp [alookup, hk, ih h.2]

theorem updValue_no_key {d : List (String × Val)} {k : String} (v : Val)
    (h : alookup k d = none) : updValue d k v = d := by
  induction d with
  | nil => rfl
  | cons e rest ih =>
    obtain ⟨k0, v0⟩ := e
    by_cases hk : k0 = k
    · simp [alookup, hk] at h
    · have hk' : ¬ k = k0 := fun hh => hk hh.symm
      simp [alookup, hk] at h
      simp [updValue, hk'] at ih ⊢
      exact ih h

theorem merge_single {d : List (String × Val)} {k : String} (v : Val)
    (h : containsKey k d = true) :
    shallowMerge d [(k, v)] = updValue d k v := by
  unfold shallowMerge updValue
  have hfil : [(k, v)].filter (fun kv => ! containsKey kv.1 d) = [] := by
    simp [List.filter, h]
  rw [hfil, List.append_nil]
  have hfun : mergeFn [(k, v)] = fun kv => if k = kv.1 then (kv.1, v) else kv := by
    funext kv
    by_cases hk : k = kv.1 <;> simp [mergeFn, alookup, hk]
  rw [hfun]

theorem shallowMerge_nil (d : List (String × Val)) : shallowMerge d [] = d := by
  unfold shallowMerge
  have hfun : mergeFn ([] : List (String × Val)) = id := by
    funext kv
    simp [mergeFn, alookup]
  simp [hfun]

theorem dict_to_yaml_cons (k : String) (v : Val) (rest : List (String × Val)) (ind : Nat) :
    dict_to_yaml ((k, v) :: rest) ind = entryRender ind k v ++ dict_to_yaml rest ind := rfl

theorem yaml_upd_split (d : List (String × Val)) (k : String) (v w : Val) (ind : Nat)
    (hnd : (d.map Prod.fst).Nodup) (hw : alookup k d = some w) :
    ∃ pre post, dict_to_yaml (updValue d k v) ind = pre ++ (entryRender ind k v ++ post)
      ∧ dict_to_yaml d ind = pre ++ (entryRender ind k w ++ post) := by
  induction d with
  | nil => simp [alookup] at hw
  | cons e rest ih =>
    obtain ⟨k0, v0⟩ := e
    by_cases hk : k0 = k
    · subst hk
      simp [alookup] at hw
      subst hw
      rw [List.map_cons, List.nodup_cons] at hnd
      have hrest : updValue rest k0 v = rest :=
        updValue_no_key v (alookup_none_of_not_mem hnd.1)
      refine ⟨"", dict_to_yaml rest ind, ?_, ?_⟩
      · have hupd : updValue ((k0, v0) :: rest) k0 v = (k0, v) :: rest := by
          unfold updValue at hrest ⊢
          simp [hrest]
        rw [hupd, dict_to_yaml_cons, String.empty_append]
      · rw [dict_to_yaml_cons, String.empty_append]
    · have hk' : ¬ k = k0 := fun hh => hk hh.symm
      simp [alookup, hk] at hw
      rw [List.map_cons, List.nodup_cons] at hnd
      obtain ⟨pre, post, h1, h2⟩ := ih hnd.2 hw
      refine ⟨entryRender ind k0 v0 ++ pre, post, ?_, ?_⟩
      · have : updValue ((k0, v0) :: rest) k v = (k0, v0) :: updValue rest k v := by
          simp [updValue, hk']
        rw [this, dict_to_yaml_cons, h1, String.append_assoc]
      · rw [dict_to_yaml_cons, h2, String.append_assoc]

mutual

theorem renderVal_newline (v : Val) (ind : Nat) : ∃ t, renderVal v ind = t ++ "\n" :=
  match v with
  | Val.vbool b => ⟨" " ++ cond b "true" "false", rfl⟩
  | Val.vother s => ⟨" " ++ s, rfl⟩
  | Val.vdict [] => ⟨"", by simp [renderVal, dict_to_yaml]⟩
  | Val.vdict (e :: es) =>
      match yaml_newline e es (ind + 1) with
      | ⟨t, ht⟩ => ⟨"\n" ++ t, by
          rw [show renderVal (Val.vdict (e :: es)) ind
              = "\n" ++ dict_to_yaml (e :: es) (ind + 1) from rfl, ht]
          simp [String.append_assoc]⟩
termination_by sizeOf v

theorem yaml_newline (e : String × Val) (es : List (String × Val)) (ind : Nat) :
    ∃ t, dict_to_yaml (e :: es) ind = t ++ "\n" :=
  match e, es with
  | (k, v), [] =>
      match renderVal_newline v ind with
      | ⟨t, ht⟩ => ⟨indentStr ind ++ k ++ ":" ++ t, by
          rw [dict_to_yaml_cons]
          simp [entryRender, dict_to_yaml, ht, String.append_assoc]⟩
  | (k, v), e2 :: es2 =>
      match yaml_newline e2 es2 ind with
      | ⟨t, ht⟩ => ⟨entryRender ind k v ++ t, by
          rw [dict_to_yaml_cons, ht]
          simp [String.append_assoc]⟩
termination_by sizeOf e + sizeOf es

end

theorem normalize_paths_append (a b : List String) :
    normalize_paths (a ++ b) = normalize_paths a ++ normalize_paths b := by
  induction a with
  | nil => rfl
  | cons x rest ih =>
    by_cases hx : x = "" <;> simp [normalize_paths, hx, ih]

/-! The claims. -/

/-- C1: what the code actually does on the spec's scenario (module pkg at
root /r holding mod_a.py, mod_b.py, __init__.py and __main__.py, with
exclude_files=["mod_b.py"]): only reference/pkg/mod_a.md is written and only
the ("pkg","mod_a") navigation entry registered, because should_exclude's
underscore rule already drops __init__.py, so the __init__-to-index branch
of render_ref never runs and no reference/pkg/index.md document or ("pkg",)
entry is produced. -/
theorem c1_scenario_code_behavior :
    (render_ref "/w" scenarioFiles scenarioModule []).2.map Prod.fst
      = ["reference/pkg/mod_a.md"]
    ∧ (render_ref "/w" scenarioFiles scenarioModule []).1
      = [(["pkg", "mod_a"], "pkg/mod_a.md")]
    ∧ should_exclude "/w" "/r/pkg/__init__.py"
        scenarioModule.exclude_files scenarioModule.exclude_dirs = true := by
  decide

/-- C2: render_ref's return value is the navigation object, not the
sequence of emitted document paths: on the scenario the function returns
the nav mapping [(("pkg","mod_a"), "pkg/mod_a.md")] while the emitted
document paths are ["reference/pkg/mod_a.md"]; even the path values held by
the returned nav differ from the emitted paths. -/
theorem c2_return_value_is_nav_not_paths :
    (render_ref "/w" scenarioFiles scenarioModule []).1
      = [(["pkg", "mod_a"], "pkg/mod_a.md")]
    ∧ (render_ref "/w" scenarioFiles scenarioModule []).2.map Prod.fst
      = ["reference/pkg/mod_a.md"]
    ∧ ¬ (render_ref "/w" scenarioFiles scenarioModule []).1.map Prod.snd
      = (render_ref "/w" scenarioFiles scenarioModule []).2.map Prod.fst := by
  decide

/-- C3: overriding a single top-level key changes only that key: every
other key's lookup in the merged map keeps its default value, the overridden
key maps to the override, the rendered output differs from the default
rendering only in that key's entry (identical prefix and suffix), and an
override of the nested summary key replaces the whole summary sub-map
wholesale. -/
theorem c3_single_key_shallow_merge (k : String) (v : Val)
    (hmem : containsKey k defaults = true) :
    (∀ k', ¬ k' = k → alookup k' (shallowMerge defaults [(k, v)]) = alookup k' defaults)
    ∧ alookup k (shallowMerge defaults [(k, v)]) = some v
    ∧ (∃ w pre post, alookup k defaults = some w
        ∧ get_options_str (some [(k, v)]) = pre ++ (entryRender 3 k v ++ post)
        ∧ get_options_str none = pre ++ (entryRender 3 k w ++ post))
    ∧ (∀ sub, alookup "summary" (shallowMerge defaults [("summary", Val.vdict sub)])
        = some (Val.vdict sub)) := by
  refine ⟨?_, alookup_merge_hit _ _ _, ?_, fun sub => alookup_merge_hit _ _ _⟩
  · intro k' hk
    apply alookup_merge_other
    have hk2 : ¬ k = k' := fun hh => hk hh.symm
    simp [alookup, hk2]
  · rcases hw : alookup k defaults with _ | w
    · rw [containsKey, hw] at hmem
      simp at hmem
    · obtain ⟨pre, post, h1, h2⟩ := yaml_upd_split defaults k v w 3 (by decide) hw
      refine ⟨w, pre, post, rfl, ?_, ?_⟩
      · show dict_to_yaml (shallowMerge defaults [(k, v)]) 3 = _
        rw [merge_single v hmem, h1]
      · show dict_to_yaml (shallowMerge defaults []) 3 = _
        rw [shallowMerge_nil, h2]

theorem c3_single_key_shallow_merge_witness :
    alookup "show_root_heading" (shallowMerge defaults [("show_source", Val.vother "true")])
      = alookup "show_root_heading" defaults
    ∧ alookup "show_source" (shallowMerge defaults [("show_source", Val.vother "true")])
      = some (Val.vother "true")
    ∧ alookup "summary"
        (shallowMerge defaults [("summary", Val.vdict [("attributes", Val.vbool false)])])
      = some (Val.vdict [("attributes", Val.vbool false)]) :=
  ⟨(c3_single_key_shallow_merge "show_source" (Val.vother "true") (by decide)).1
      "show_root_heading" (by decide),
   (c3_single_key_shallow_merge "show_source" (Val.vother "true") (by decide)).2.1,
   (c3_single_key_shallow_merge "show_source" (Val.vother "true") (by decide)).2.2.2
      [("attributes", Val.vbool false)]⟩

/-- C4: with no overrides (None) or an empty override dict, get_options_str
is byte-for-byte the serialization of the fixed default option map. -/
theorem c4_empty_override_default_serialization :
    get_options_str none = dict_to_yaml defaults 3
    ∧ get_options_str (some []) = dict_to_yaml defaults 3 := by
  constructor <;>
    · show dict_to_yaml (shallowMerge defaults []) 3 = _
      rw [shallowMerge_nil]

/-- C5 counterexample: the hardcoded default option map does not have 22
top-level keys. -/
theorem c5_defaults_not_22_keys : ¬ defaults.length = 22 := by decide

/-- C5 (amended): the hardcoded default option map has exactly 20 distinct
top-level keys. -/
theorem c5_defaults_20_keys :
    defaults.length = 20 ∧ (defaults.map Prod.fst).Nodup := by decide

/-- C6: a path whose base name starts with the underscore private marker is
always excluded, whatever the exclusion lists are. -/
theorem c6_private_marker_always_excluded (cwd p : String)
    (exclude_files exclude_dirs : List String)
    (h : strStartsWith (basename p) "_" = true) :
    should_exclude cwd p exclude_files exclude_dirs = true := by
  simp [should_exclude, h]

theorem c6_private_marker_always_excluded_witness :
    should_exclude "/w" "/r/pkg/_private.py" ["a.py"] ["d"] = true :=
  c6_private_marker_always_excluded "/w" "/r/pkg/_private.py" ["a.py"] ["d"] (by decide)

/-- C7: dict_to_yaml on a dict holding one nested dict at indent 0 yields
exactly "key:\n  nested: value\n"; every rendering of a non-empty dict ends
with a newline (so every emitted line is newline-terminated), the
indentation unit is two spaces per level, a nested dict opens a block one
level deeper, booleans render as the tokens true/false, and any other value
renders via its string form. -/
theorem c7_dict_to_yaml_rendering :
    dict_to_yaml [("key", Val.vdict [("nested", Val.vother "value")])] 0
      = "key:\n  nested: value\n"
    ∧ (∀ e es ind, ∃ t, dict_to_yaml (e :: es) ind = t ++ "\n")
    ∧ (∀ n, indentStr (n + 1) = indentStr n ++ "  ")
    ∧ (∀ k d rest ind, dict_to_yaml ((k, Val.vdict d) :: rest) ind
        = indentStr ind ++ k ++ ":" ++ "\n" ++ dict_to_yaml d (ind + 1)
          ++ dict_to_yaml rest ind)
    ∧ (∀ k b rest ind, dict_to_yaml ((k, Val.vbool b) :: rest) ind
        = indentStr ind ++ k ++ ":" ++ " " ++ (cond b "true" "false") ++ "\n"
          ++ dict_to_yaml rest ind)
    ∧ (∀ k s rest ind, dict_to_yaml ((k, Val.vother s) :: rest) ind
        = indentStr ind ++ k ++ ":" ++ " " ++ s ++ "\n" ++ dict_to_yaml rest ind) := by
  refine ⟨by decide, fun e es ind => yaml_newline e es ind, fun n => rfl, ?_, ?_, ?_⟩ <;>
    · intro k x rest ind
      simp only [dict_to_yaml, renderVal]
      simp only [← String.append_assoc]

/-- C8: the module-location lookup raises ValueError on an empty module
name, raises ImportError when the lookup cannot locate the module, and
otherwise returns the parent-of-parent directory of the module's file. -/
theorem c8_module_location_lookup (find : String → Option String) (module_name : String) :
    (module_name = "" →
      get_module_path find module_name
        = Except.error (PyError.valueError "module_name is required"))
    ∧ (¬ module_name = "" → find module_name = none →
      get_module_path find module_name
        = Except.error (PyError.importError ("module " ++ module_name ++ " not found")))
    ∧ (∀ fn, ¬ module_name = "" → find module_name = some fn →
      get_module_path find module_name = Except.ok (pathParent (pathParent fn))) := by
  refine ⟨fun h => ?_, fun h hf => ?_, fun fn h hf => ?_⟩
  · simp [get_module_path, h]
  · simp [get_module_path, h, hf]
  · simp [get_module_path, h, hf]

theorem c8_module_location_lookup_witness :
    get_module_path osFind "" = Except.error (PyError.valueError "module_name is required")
    ∧ get_module_path osFind "nope"
        = Except.error (PyError.importError ("module " ++ "nope" ++ " not found"))
    ∧ get_module_path osFind "os" = Except.ok "/usr/lib" :=
  ⟨(c8_module_location_lookup osFind "").1 rfl,
   (c8_module_location_lookup osFind "nope").2.1 (by decide) rfl,
   ((c8_module_location_lookup osFind "os").2.2 "/usr/lib/python3.9/os.py"
      (by decide) rfl).trans rfl⟩

/-- C9: exclusion matching is a raw character-suffix test, not aligned to
path-segment boundaries: the entry "b.py" excludes /r/pkg/mod_b.py even
though the file's base name is not "b.py", and the directory entry "dir"
excludes a file in /r/mydir even though that directory is not named "dir";
neither file triggers the underscore rule. -/
theorem c9_suffix_match_not_segment_aligned :
    should_exclude "/w" "/r/pkg/mod_b.py" ["b.py"] [] = true
    ∧ ¬ basename "/r/pkg/mod_b.py" = "b.py"
    ∧ should_exclude "/w" "/r/mydir/mod.py" [] ["dir"] = true
    ∧ ¬ dirname "/r/mydir/mod.py" = "dir"
    ∧ ¬ strStartsWith (basename "/r/pkg/mod_b.py") "_" = true
    ∧ ¬ strStartsWith (basename "/r/mydir/mod.py") "_" = true := by
  decide

/-- C10: inserting an empty-string entry anywhere in exclude_files or in
exclude_dirs never changes the exclusion verdict, because normalize_paths
drops falsy entries before matching. -/
theorem c10_empty_exclusion_entries_dropped (cwd p : String)
    (ef1 ef2 ed1 ed2 : List String) :
    should_exclude cwd p (ef1 ++ "" :: ef2) (ed1 ++ ed2)
      = should_exclude cwd p (ef1 ++ ef2) (ed1 ++ ed2)
    ∧ should_exclude cwd p (ef1 ++ ef2) (ed1 ++ "" :: ed2)
      = should_exclude cwd p (ef1 ++ ef2) (ed1 ++ ed2) := by
  have hf : ∀ a b : List String, normalize_paths (a ++ "" :: b)
      = normalize_paths (a ++ b) := by
    intro a b
    rw [normalize_paths_append, normalize_paths_append]
    simp [normalize_paths]
  constructor <;> simp [should_exclude, hf]

end RefGen
